import Mathlib

/-!
Verification development for the simulation/regression-test harness
(`inet/simulation/task.py`, `inet/test/chart.py`).

The Python code is shallowly embedded: pure string processing (the `re`
searches, `re.sub`, path construction) is translated to executable Lean
functions over `List Char`; the filesystem touched by the chart tasks is an
association list from path to file content; fallible Python code (NameError,
TypeError) returns `Except`.  External collaborators (the chart renderer
`analysis.export_image`, the similarity metric `sewar.rmse`, the subprocess
runner) are modelled as parameters or via the artifact layout the spec
records for them.
-/

namespace Inet

/-- `startsWith pat s` decides whether `pat` is a prefix of `s`
(character-for-character, like Python matching a literal at one position). -/
def startsWith : List Char → List Char → Bool
  | [], _ => true
  | _ :: _, [] => false
  | p :: ps, c :: cs => p == c && startsWith ps cs

/-- `containsSub pat s` decides whether `pat` occurs as a contiguous
substring of `s`.  `re.search` with a pattern of the shape `.*LIT.*`
(as in `re.search(".*/home/.*", path)`) succeeds exactly when `LIT`
occurs as a substring, since `.*` may match the empty string. -/
def containsSub (pat : List Char) : List Char → Bool
  | [] => startsWith pat []
  | c :: rest => startsWith pat (c :: rest) || containsSub pat rest

/-- `.` in a Python regex does not match a newline, so every group of the
patterns embedded below is confined to the line the match starts on. -/
def takeLine (s : List Char) : List Char := s.takeWhile (fun c => c ≠ '\n')

/-- Decimal digits to a natural number, as Python `int` applied to the
digits captured by `(\d+)`. -/
def digitsToNat (ds : List Char) : Nat :=
  ds.foldl (fun n c => 10 * n + (c.toNat - '0'.toNat)) 0

/-- Python `str.strip()`: drop whitespace from both ends. -/
def pyStrip (l : List Char) : List Char :=
  ((l.dropWhile Char.isWhitespace).reverse.dropWhile Char.isWhitespace).reverse

/-- Greedy split used to embed a regex tail of the shape `(.*)SEP⟨ok⟩` on a
single line: `(.*)` is greedy, so the regex engine commits to the *last*
position where the literal `sep` is followed by text accepted by the
continuation `ok`.  Returns the text captured by `(.*)` together with the
continuation's answer. -/
def greedyLastSplit (sep : List Char) (ok : List Char → Option α) :
    List Char → Option (List Char × α)
  | [] =>
    if startsWith sep [] then
      (ok (List.drop sep.length [])).map (fun a => ([], a))
    else none
  | c :: rest =>
    match greedyLastSplit sep ok rest with
    | some (pre, a) => some (c :: pre, a)
    | none =>
      if startsWith sep (c :: rest) then
        (ok (List.drop sep.length (c :: rest))).map (fun a => ([], a))
      else none

/-- The literal head of `r"<!> Simulation time limit reached -- at t=(.*), event #(\d+)"`. -/
def timeLimitMarker : List Char := "<!> Simulation time limit reached -- at t=".data

/-- Continuation for `, event #(\d+)`: at least one digit, `\d+` greedy. -/
def eventCont (rem : List Char) : Option Nat :=
  let ds := rem.takeWhile Char.isDigit
  if ds.isEmpty then none else some (digitsToNat ds)

/-- Embedding of
`re.search(r"<!> Simulation time limit reached -- at t=(.*), event #(\d+)", stdout)`
(task.py line 105): scan left to right for the literal head; at each
occurrence try to complete the match on the rest of that line (greedy
`(.*)`, then `, event #`, then greedy `(\d+)`); the first start position
that completes wins.  Returns (group 1, int(group 2)). -/
def reSearchTimeLimit : List Char → Option (List Char × Nat)
  | [] => none
  | c :: rest =>
    if startsWith timeLimitMarker (c :: rest) then
      match greedyLastSplit ", event #".data eventCont
          (takeLine (List.drop timeLimitMarker.length (c :: rest))) with
      | some r => some r
      | none => reSearchTimeLimit rest
    else reSearchTimeLimit rest

/-- The literal head of the two stderr error patterns (task.py lines 109, 113). -/
def errorMarker : List Char := "<!> Error: ".data

/-- Embedding of `re.search("<!> Error: (.*) -- in module (.*)", stderr)`
(task.py line 109): first occurrence of the literal head whose line also
contains `" -- in module "`; group 1 is greedy up to the last such
separator on the line, group 2 is the rest of the line. -/
def reSearchErrorModule : List Char → Option (List Char × List Char)
  | [] => none
  | c :: rest =>
    if startsWith errorMarker (c :: rest) then
      match greedyLastSplit " -- in module ".data (fun rem => some rem)
          (takeLine (List.drop errorMarker.length (c :: rest))) with
      | some r => some r
      | none => reSearchErrorModule rest
    else reSearchErrorModule rest

/-- Embedding of `re.search("<!> Error: (.*)", stderr)` (task.py line 113):
group 1 is the rest of the line after the first occurrence of the head. -/
def reSearchError : List Char → Option (List Char)
  | [] => none
  | c :: rest =>
    if startsWith errorMarker (c :: rest) then
      some (takeLine (List.drop errorMarker.length (c :: rest)))
    else reSearchError rest

/-- Captured outcome of `subprocess` / the pluggable simulation runner:
exit status plus decoded stdout and stderr. -/
structure SubprocessResult where
  returncode : Int
  stdout : String
  stderr : String
deriving DecidableEq

/-- The fields of `SimulationTaskResult` relevant to the claims
(task.py lines 98-119). -/
structure SimulationTaskResult where
  result : String
  reason : Option String
  subprocess_result : Option SubprocessResult
  last_event_number : Option Nat
  last_simulation_time : Option String
  error_message : Option String
  error_module : Option String
deriving DecidableEq

/-- Embedding of `SimulationTaskResult.__init__` (task.py lines 98-119):
when a captured subprocess result is present, stdout is searched for the
time-limit pattern and stderr for the two error patterns (module form
first, bare form as fallback); otherwise every derived field is `None`. -/
def mkSimulationTaskResult (result : String) (reason : Option String)
    (subprocess_result : Option SubprocessResult) : SimulationTaskResult :=
  match subprocess_result with
  | some sub =>
    let m1 := reSearchTimeLimit sub.stdout.data
    let last_event_number := m1.map (fun p => p.2)
    let last_simulation_time := m1.map (fun p => String.mk p.1)
    let m2 := reSearchErrorModule sub.stderr.data
    let error_module := m2.map (fun p => String.mk (pyStrip p.2))
    let error_message :=
      match m2.map (fun p => String.mk (pyStrip p.1)) with
      | some m => some m
      | none => (reSearchError sub.stderr.data).map (fun l => String.mk (pyStrip l))
    { result := result, reason := reason, subprocess_result := some sub,
      last_event_number := last_event_number,
      last_simulation_time := last_simulation_time,
      error_message := error_message, error_module := error_module }
  | none =>
    { result := result, reason := reason, subprocess_result := none,
      last_event_number := none, last_simulation_time := none,
      error_message := none, error_module := none }

/-- `signal.SIGINT.value` on POSIX. -/
def SIGINT_value : Int := 2

/-- Embedding of the classification at the end of
`SimulationTask.run_protected` (task.py lines 80-86), as a function of the
captured subprocess result returned by the injected simulation runner. -/
def SimulationTask.run_protected (subprocess_result : SubprocessResult) :
    SimulationTaskResult :=
  if subprocess_result.returncode = -SIGINT_value then
    mkSimulationTaskResult "CANCEL" (some "Cancel by user") (some subprocess_result)
  else if subprocess_result.returncode = 0 then
    mkSimulationTaskResult "DONE" none (some subprocess_result)
  else
    mkSimulationTaskResult "ERROR" (some "Non-zero exit code") (some subprocess_result)

theorem mkSimulationTaskResult_result (r : String) (rs : Option String)
    (s : Option SubprocessResult) : (mkSimulationTaskResult r rs s).result = r := by
  cases s <;> rfl

theorem mkSimulationTaskResult_reason (r : String) (rs : Option String)
    (s : Option SubprocessResult) : (mkSimulationTaskResult r rs s).reason = rs := by
  cases s <;> rfl

/-! ### The `clean_simulation_results` guard (task.py lines 129-136) -/

/-- `os.path.join` for a relative second component. -/
def pathJoin (a b : String) : String := a ++ "/" ++ b

/-- `shutil.rmtree(path)`: remove the directory entry `path` and everything
below it. -/
def removeTree (fs : List String) (path : String) : List String :=
  fs.filter (fun p => !(p == path || startsWith (path ++ "/").data p.data))

/-- Embedding of `clean_simulation_results` (task.py lines 129-136) as a
function of the resolved full path of the configuration's working directory
and of the set of existing filesystem paths.  The first component of the
answer is `some msg` when the function raises `Exception(msg)`; the second
is the filesystem afterwards. -/
def clean_simulation_results (working_directory_full : String)
    (fs : List String) : Option String × List String :=
  let path := pathJoin working_directory_full "results"
  if containsSub "/home/".data path.data = false then
    (some "Path is not in home", fs)
  else if fs.contains path then
    (none, removeTree fs path)
  else
    (none, fs)

/-! ### Chart tasks (chart.py) -/

/-- Python exceptions that the chart-task code can raise. -/
inductive PyError where
  | nameError (nm : String)
  | typeError (msg : String)
deriving DecidableEq

/-- A chart of the loaded analysis: its name and the value of
`chart.properties["image_export_filename"]` (`none` models Python `None`;
an entirely missing key would raise `KeyError` even earlier than the
`TypeError` modelled below). -/
structure Chart where
  name : String
  image_export_filename : Option String
deriving DecidableEq

/-- The fields of `TestTaskResult` / `UpdateTaskResult` relevant to the
claims.  `expected_result` is `some` only when the source passes
`expected_result=...` explicitly (its superclass default lives outside the
repository slice). -/
structure ResultRecord where
  result : String
  expected_result : Option String
  reason : Option String
deriving DecidableEq

/-- Filesystem model for the chart tasks: an association list from path to
file content; the first binding for a path is its current content. -/
abbrev FS := List (String × String)

/-- `os.path.isfile` / reading a file: the current content of `p`, if any. -/
def FS.read? (fs : FS) (p : String) : Option String :=
  (fs.find? (fun e => e.1 == p)).map (fun e => e.2)

/-- Removing every binding of `p` (`os.remove`). -/
def FS.remove (fs : FS) (p : String) : FS :=
  fs.filter (fun e => !(e.1 == p))

/-- Writing (or overwriting) `p` with content `c`. -/
def FS.write (fs : FS) (p : String) (c : String) : FS :=
  (p, c) :: FS.remove fs p

/-- `os.rename(src, dst)`: move the content of `src` onto `dst`
(overwriting `dst`).  In the chart tasks `src` is the candidate file just
written by the renderer, so it always exists. -/
def FS.rename (fs : FS) (src dst : String) : FS :=
  match FS.read? fs src with
  | some c => FS.write (FS.remove fs src) dst c
  | none => fs

/-- Embedding of `re.sub("_new", "", file_name)` (chart.py lines 32, 99):
delete every non-overlapping occurrence of `"_new"`, scanning left to
right — exactly Python `re.sub` with a literal pattern. -/
def removeUnderscoreNew : List Char → List Char
  | '_' :: 'n' :: 'e' :: 'w' :: rest => removeUnderscoreNew rest
  | c :: rest => c :: removeUnderscoreNew rest
  | [] => []

/-- Modelled from the spec: `analysis.export_image(chart, folder, workspace,
format="png", dpi=150, target_folder="doc/media", filename=f)` is an
external collaborator (omnetpp.scave); per the spec's baseline-artifact
layout it renders a PNG under the `doc/media` target folder and returns the
path relative to `folder`. -/
def exportImageFileName (filename : String) : String :=
  "doc/media/" ++ filename ++ ".png"

/-- `file_name` of chart.py lines 30/97: the renderer is called with
`filename=image_export_filename + "_new"`. -/
def candidateFileName (image_export_filename : String) : String :=
  exportImageFileName (image_export_filename ++ "_new")

/-- `old_file_name`'s relative part, chart.py lines 32/99:
`re.sub("_new", "", file_name)`. -/
def baselineFileName (image_export_filename : String) : String :=
  String.mk (removeUnderscoreNew (candidateFileName image_export_filename).data)

/-- Loop body of `ChartTestTask.run_protected` once the chart whose name
matches `self.chart_name` is reached (chart.py lines 28-45).  `rmse` and
`ratToString` model the external `sewar.rmse` metric on the two image
files' contents and Python `str` on its value; `rendered` is the image
content produced by the renderer.  Note the source computes
`image_export_filename + "_new"` (line 30) *before* the `is None` check on
line 33, so a `None` export filename raises `TypeError` there. -/
def ChartTestTask.runFound (rmse : String → String → ℚ)
    (ratToString : ℚ → String) (folder rendered : String) (keep_charts : Bool)
    (chart : Chart) (fs : FS) : Except PyError (ResultRecord × FS) :=
  match chart.image_export_filename with
  | none => Except.error (PyError.typeError "unsupported operand type for +: NoneType and str")
  | some image_export_filename =>
    let file_name := candidateFileName image_export_filename
    let new_file_name := pathJoin folder file_name
    let fs1 := FS.write fs new_file_name rendered
    let old_file_name := pathJoin folder (baselineFileName image_export_filename)
    if image_export_filename == "" then
      Except.ok ({ result := "SKIP", expected_result := some "SKIP",
                   reason := some "Chart file name is not specified" }, fs1)
    else
      match FS.read? fs1 old_file_name with
      | some old_image =>
        match FS.read? fs1 new_file_name with
        | some new_image =>
          let metric := rmse old_image new_image
          let fs2 := if keep_charts then fs1 else FS.remove fs1 new_file_name
          let result := if metric = 0 then "PASS" else "FAIL"
          let reason :=
            if metric = 0 then none
            else some ("Metric: " ++ ratToString metric)
          Except.ok ({ result := result, expected_result := none, reason := reason }, fs2)
        | none => Except.error (PyError.typeError "candidate image missing")
      | none =>
        Except.ok ({ result := "FAIL", expected_result := none,
                     reason := some "Chart not found" }, fs1)

/-- Embedding of `ChartTestTask.run_protected` (chart.py lines 23-46): the
`for chart in analysis.collect_charts()` loop returns from the body at the
first chart whose name matches; falling off the loop gives
`ERROR` / "Chart not found". -/
def ChartTestTask.run_protected (rmse : String → String → ℚ)
    (ratToString : ℚ → String) (folder chart_name rendered : String)
    (keep_charts : Bool) (charts : List Chart) (fs : FS) :
    Except PyError (ResultRecord × FS) :=
  match charts with
  | [] => Except.ok ({ result := "ERROR", expected_result := none,
                       reason := some "Chart not found" }, fs)
  | chart :: rest =>
    if chart.name == chart_name then
      ChartTestTask.runFound rmse ratToString folder rendered keep_charts chart fs
    else
      ChartTestTask.run_protected rmse ratToString folder chart_name rendered
        keep_charts rest fs

/-- Loop body of `ChartUpdateTask.run_protected` once the matching chart is
reached (chart.py lines 95-111).  `filecmp.cmp(old, new, shallow=False)` is
a byte-for-byte content comparison; no similarity metric appears anywhere
in this function. -/
def ChartUpdateTask.runFound (folder rendered : String) (chart : Chart)
    (fs : FS) : Except PyError (ResultRecord × FS) :=
  match chart.image_export_filename with
  | none => Except.error (PyError.typeError "unsupported operand type for +: NoneType and str")
  | some image_export_filename =>
    let new_file_name := pathJoin folder (candidateFileName image_export_filename)
    let fs1 := FS.write fs new_file_name rendered
    let old_file_name := pathJoin folder (baselineFileName image_export_filename)
    if image_export_filename == "" then
      Except.ok ({ result := "SKIP", expected_result := some "SKIP",
                   reason := some "Chart file name is not specified" }, fs1)
    else
      match FS.read? fs1 old_file_name with
      | some old_content =>
        match FS.read? fs1 new_file_name with
        | some new_content =>
          if old_content = new_content then
            Except.ok ({ result := "KEEP", expected_result := none, reason := none },
              FS.remove fs1 new_file_name)
          else
            Except.ok ({ result := "UPDATE", expected_result := none, reason := none },
              FS.rename fs1 new_file_name old_file_name)
        | none => Except.error (PyError.typeError "candidate image missing")
      | none =>
        Except.ok ({ result := "INSERT", expected_result := none, reason := none },
          FS.rename fs1 new_file_name old_file_name)

/-- Embedding of `ChartUpdateTask.run_protected` (chart.py lines 90-112). -/
def ChartUpdateTask.run_protected (folder chart_name rendered : String)
    (charts : List Chart) (fs : FS) : Except PyError (ResultRecord × FS) :=
  match charts with
  | [] => Except.ok ({ result := "ERROR", expected_result := none,
                       reason := some "Chart not found" }, fs)
  | chart :: rest =>
    if chart.name == chart_name then
      ChartUpdateTask.runFound folder rendered chart fs
    else
      ChartUpdateTask.run_protected folder chart_name rendered rest fs

/-- `for chart in analysis.collect_charts(): if chart.name == self.chart_name`
— the chart the loop body fires on, if any. -/
def findChart (charts : List Chart) (chart_name : String) : Option Chart :=
  charts.find? (fun chart => chart.name == chart_name)

/-- Aggregate result code and reason of a `MultipleTasks` batch. -/
structure MultipleTaskResultsRec where
  result : String
  reason : Option String
deriving DecidableEq

/-- Embedding of `MultipleChartTestTasks.run_protected` (chart.py lines
53-58).  The first argument models the aggregate result of
`self.multiple_simulation_tasks.run_protected(...)`; the second models the
(deferred) outcome of `super().run_protected(**kwargs)`, i.e. actually
running the chart tests.  On the non-DONE branch the source evaluates the
name `simulation_task_result` (line 56), which is bound nowhere, so Python
raises `NameError` there instead of building the short-circuit result. -/
def MultipleChartTestTasks.run_protected
    (multiple_simulation_task_results : MultipleTaskResultsRec)
    (super_run : Except PyError MultipleTaskResultsRec) :
    Except PyError MultipleTaskResultsRec :=
  if multiple_simulation_task_results.result ≠ "DONE" then
    Except.error (PyError.nameError "simulation_task_result")
  else
    super_run

/-! ### Helper lemmas -/

theorem findChart_cons (hd : Chart) (tl : List Chart) (nm : String) :
    findChart (hd :: tl) nm =
      if hd.name == nm then some hd else findChart tl nm := by
  by_cases h : (hd.name == nm) = true
  · simp [findChart, List.find?_cons, h]
  · simp [findChart, List.find?_cons, h]

theorem run_protected_found_test (rmse : String → String → ℚ)
    (ratToString : ℚ → String) (folder chart_name rendered : String)
    (keep_charts : Bool) (charts : List Chart) (fs : FS) (chart : Chart)
    (h : findChart charts chart_name = some chart) :
    ChartTestTask.run_protected rmse ratToString folder chart_name rendered
        keep_charts charts fs =
      ChartTestTask.runFound rmse ratToString folder rendered keep_charts chart fs := by
  induction charts with
  | nil => simp [findChart] at h
  | cons hd tl ih =>
    rw [findChart_cons] at h
    by_cases hc : (hd.name == chart_name) = true
    · rw [if_pos hc] at h
      cases h
      simp [ChartTestTask.run_protected, hc]
    · rw [if_neg hc] at h
      rw [ChartTestTask.run_protected]
      simp only [hc, Bool.false_eq_true, if_false]
      exact ih h

theorem run_protected_notFound_test (rmse : String → String → ℚ)
    (ratToString : ℚ → String) (folder chart_name rendered : String)
    (keep_charts : Bool) (charts : List Chart) (fs : FS)
    (h : findChart charts chart_name = none) :
    ChartTestTask.run_protected rmse ratToString folder chart_name rendered
        keep_charts charts fs =
      Except.ok ({ result := "ERROR", expected_result := none,
                   reason := some "Chart not found" }, fs) := by
  induction charts with
  | nil => rfl
  | cons hd tl ih =>
    rw [findChart_cons] at h
    by_cases hc : (hd.name == chart_name) = true
    · rw [if_pos hc] at h
      cases h
    · rw [if_neg hc] at h
      rw [ChartTestTask.run_protected]
      simp only [hc, Bool.false_eq_true, if_false]
      exact ih h

theorem run_protected_found_update (folder chart_name rendered : String)
    (charts : List Chart) (fs : FS) (chart : Chart)
    (h : findChart charts chart_name = some chart) :
    ChartUpdateTask.run_protected folder chart_name rendered charts fs =
      ChartUpdateTask.runFound folder rendered chart fs := by
  induction charts with
  | nil => simp [findChart] at h
  | cons hd tl ih =>
    rw [findChart_cons] at h
    by_cases hc : (hd.name == chart_name) = true
    · rw [if_pos hc] at h
      cases h
      simp [ChartUpdateTask.run_protected, hc]
    · rw [if_neg hc] at h
      rw [ChartUpdateTask.run_protected]
      simp only [hc, Bool.false_eq_true, if_false]
      exact ih h

theorem FS.read?_write_self (fs : FS) (p c : String) :
    FS.read? (FS.write fs p c) p = some c := by
  simp [FS.read?, FS.write, List.find?]

theorem FS.find?_remove (fs : FS) (p q : String) (h : q ≠ p) :
    List.find? (fun e => e.1 == q) (FS.remove fs p) =
      List.find? (fun e => e.1 == q) fs := by
  induction fs with
  | nil => rfl
  | cons hd tl ih =>
    by_cases hp : (hd.1 == p) = true
    · have hq : (hd.1 == q) = false := by
        have : hd.1 = p := by simpa using hp
        simp [this, Ne.symm h]
      simp [FS.remove, List.filter, hp, List.find?, hq] at ih ⊢
      simpa [FS.remove] using ih
    · simp only [FS.remove, List.filter, hp, Bool.not_false] at ih ⊢
      rw [List.find?]
      rw [List.find?]
      cases hq : (hd.1 == q) <;> simp [hq]
      simpa [FS.remove] using ih

theorem FS.read?_write_ne (fs : FS) (p q c : String) (h : q ≠ p) :
    FS.read? (FS.write fs p c) q = FS.read? fs q := by
  have hq : (p == q) = false := by simp [Ne.symm h]
  simp only [FS.read?, FS.write, List.find?, hq]
  rw [FS.find?_remove fs p q h]

theorem FS.read?_remove_self (fs : FS) (p : String) :
    FS.read? (FS.remove fs p) p = none := by
  induction fs with
  | nil => rfl
  | cons hd tl ih =>
    by_cases hp : (hd.1 == p) = true
    · simp only [FS.read?, FS.remove, List.filter, hp, Bool.not_true] at ih ⊢
      exact ih
    · simp only [FS.read?, FS.remove, List.filter, hp, Bool.not_false,
        List.find?_cons, Bool.false_eq_true, if_false] at ih ⊢
      exact ih

/-! ### C1 -/

/-- C1: for every `SimulationTask` run, the result code is determined
solely by the subprocess exit status: exit status `-signal.SIGINT.value`
yields `CANCEL` with reason "Cancel by user", exit status `0` yields
`DONE`, any other exit status yields `ERROR` with reason "Non-zero exit
code"; in particular an interrupted run is never classified `ERROR`. -/
theorem C1_result_from_exit_status (sub : SubprocessResult) :
    (sub.returncode = -SIGINT_value →
      (SimulationTask.run_protected sub).result = "CANCEL" ∧
      (SimulationTask.run_protected sub).reason = some "Cancel by user") ∧
    (sub.returncode = 0 →
      (SimulationTask.run_protected sub).result = "DONE" ∧
      (SimulationTask.run_protected sub).reason = none) ∧
    (sub.returncode ≠ -SIGINT_value → sub.returncode ≠ 0 →
      (SimulationTask.run_protected sub).result = "ERROR" ∧
      (SimulationTask.run_protected sub).reason = some "Non-zero exit code") ∧
    (sub.returncode = -SIGINT_value →
      (SimulationTask.run_protected sub).result ≠ "ERROR") := by
  refine ⟨fun h => ?_, fun h => ?_, fun h1 h2 => ?_, fun h => ?_⟩
  · simp [SimulationTask.run_protected, h, mkSimulationTaskResult_result,
      mkSimulationTaskResult_reason]
  · have hne : sub.returncode ≠ -SIGINT_value := by rw [h]; decide
    simp [SimulationTask.run_protected, SIGINT_value, h, hne,
      mkSimulationTaskResult_result, mkSimulationTaskResult_reason]
  · simp [SimulationTask.run_protected, h1, h2, mkSimulationTaskResult_result,
      mkSimulationTaskResult_reason]
  · have hr : (SimulationTask.run_protected sub).result = "CANCEL" := by
      simp [SimulationTask.run_protected, h, mkSimulationTaskResult_result]
    rw [hr]
    decide

/-- Witness for C1 at a concrete interrupted run. -/
theorem C1_result_from_exit_status_witness :
    (SimulationTask.run_protected ⟨-2, "", ""⟩).result = "CANCEL" ∧
    (SimulationTask.run_protected ⟨-2, "", ""⟩).reason = some "Cancel by user" :=
  (C1_result_from_exit_status ⟨-2, "", ""⟩).1 (by decide)

/-! ### C2 -/

/-- C2 (divergence witness): the claim says a chart-test batch whose
prerequisite simulation batch did not end in `DONE` short-circuits to a
result carrying that batch's code and reason; the code instead evaluates
the unbound name `simulation_task_result` on that branch (chart.py line
56), so it raises `NameError` — while on the `DONE` branch it does proceed
to run the chart tests. -/
theorem C2_short_circuit_raises_nameError :
    MultipleChartTestTasks.run_protected ⟨"CANCEL", some "Cancel by user"⟩
        (Except.ok ⟨"DONE", none⟩) =
      Except.error (PyError.nameError "simulation_task_result") ∧
    MultipleChartTestTasks.run_protected ⟨"ERROR", some "Non-zero exit code"⟩
        (Except.ok ⟨"DONE", none⟩) =
      Except.error (PyError.nameError "simulation_task_result") ∧
    MultipleChartTestTasks.run_protected ⟨"DONE", none⟩
        (Except.ok ⟨"FAIL", some "Metric: 0.25"⟩) =
      Except.ok ⟨"FAIL", some "Metric: 0.25"⟩ := by
  refine ⟨rfl, rfl, ?_⟩
  rfl

/-! ### C7 -/

/-- C7: for every configuration whose resolved results-directory path does
not contain "/home/", `clean_simulation_results` raises and deletes
nothing (an existing directory still exists afterward); any change to the
filesystem can happen only when the path matches the home pattern. -/
theorem C7_clean_guard (working_directory_full : String) (fs : List String) :
    (containsSub "/home/".data (pathJoin working_directory_full "results").data = false →
      (clean_simulation_results working_directory_full fs).1 = some "Path is not in home" ∧
      (clean_simulation_results working_directory_full fs).2 = fs ∧
      (fs.contains (pathJoin working_directory_full "results") = true →
        (clean_simulation_results working_directory_full fs).2.contains
          (pathJoin working_directory_full "results") = true)) ∧
    ((clean_simulation_results working_directory_full fs).2 ≠ fs →
      containsSub "/home/".data (pathJoin working_directory_full "results").data = true) := by
  constructor
  · intro h
    refine ⟨?_, ?_, ?_⟩ <;> simp [clean_simulation_results, h]
  · intro hne
    by_cases h : containsSub "/home/".data (pathJoin working_directory_full "results").data = true
    · exact h
    · have hf : containsSub "/home/".data
          (pathJoin working_directory_full "results").data = false := by
        simpa using h
      exact absurd (by simp [clean_simulation_results, hf]) hne

/-! ### C8 -/

/-- C8: for every `SimulationTaskResult` constructed with a captured
subprocess result, stdout is searched for the simulation-time-limit
pattern; on a match, `last_event_number` is the integer event count and
`last_simulation_time` the time text, and both fields are `None`
otherwise. -/
theorem C8_time_limit_fields (res : String) (reason : Option String)
    (sub : SubprocessResult) :
    (reSearchTimeLimit sub.stdout.data = none →
      (mkSimulationTaskResult res reason (some sub)).last_event_number = none ∧
      (mkSimulationTaskResult res reason (some sub)).last_simulation_time = none) ∧
    (∀ t n, reSearchTimeLimit sub.stdout.data = some (t, n) →
      (mkSimulationTaskResult res reason (some sub)).last_event_number = some n ∧
      (mkSimulationTaskResult res reason (some sub)).last_simulation_time =
        some (String.mk t)) ∧
    (mkSimulationTaskResult res reason (some sub)).result = res := by
  refine ⟨fun h => ?_, fun t n h => ?_, rfl⟩ <;>
    simp [mkSimulationTaskResult, h]

/-- Witness for C8: a `DONE` run whose stdout contains
"time limit reached -- at t=12.5s, event #340" carries
`last_event_number = 340` and `last_simulation_time = "12.5s"`. -/
theorem C8_time_limit_fields_witness :
    (mkSimulationTaskResult "DONE" none
      (some ⟨0, "<!> Simulation time limit reached -- at t=12.5s, event #340\n",
        ""⟩)).last_event_number = some 340 ∧
    (mkSimulationTaskResult "DONE" none
      (some ⟨0, "<!> Simulation time limit reached -- at t=12.5s, event #340\n",
        ""⟩)).last_simulation_time = some "12.5s" := by
  have h := (C8_time_limit_fields "DONE" none
    ⟨0, "<!> Simulation time limit reached -- at t=12.5s, event #340\n", ""⟩).2.1
    "12.5s".data 340 (by decide)
  exact h

/-! ### C9 -/

/-- C9: stderr is first searched for the module-qualified error pattern,
setting `error_message` and `error_module`; if that fails the bare error
pattern is tried, setting `error_message` with `error_module` absent; if
neither matches, both fields are `None`. -/
theorem C9_error_fields (res : String) (reason : Option String)
    (sub : SubprocessResult) :
    (∀ msg md, reSearchErrorModule sub.stderr.data = some (msg, md) →
      (mkSimulationTaskResult res reason (some sub)).error_message =
        some (String.mk (pyStrip msg)) ∧
      (mkSimulationTaskResult res reason (some sub)).error_module =
        some (String.mk (pyStrip md))) ∧
    (reSearchErrorModule sub.stderr.data = none →
      (mkSimulationTaskResult res reason (some sub)).error_module = none ∧
      (∀ m, reSearchError sub.stderr.data = some m →
        (mkSimulationTaskResult res reason (some sub)).error_message =
          some (String.mk (pyStrip m))) ∧
      (reSearchError sub.stderr.data = none →
        (mkSimulationTaskResult res reason (some sub)).error_message = none)) := by
  refine ⟨fun msg md h => ?_, fun h => ⟨?_, fun m hm => ?_, fun hm => ?_⟩⟩
  · simp [mkSimulationTaskResult, h]
  · simp [mkSimulationTaskResult, h]
  · simp [mkSimulationTaskResult, h, hm]
  · simp [mkSimulationTaskResult, h, hm]

/-- Witness for C9: stderr containing
"<!> Error: Queue overflow -- in module net.switch[3]" yields
`error_message = "Queue overflow"` and `error_module = "net.switch[3]"`. -/
theorem C9_error_fields_witness :
    (mkSimulationTaskResult "ERROR" (some "Non-zero exit code")
      (some ⟨1, "", "<!> Error: Queue overflow -- in module net.switch[3]\n"⟩)).error_message =
      some "Queue overflow" ∧
    (mkSimulationTaskResult "ERROR" (some "Non-zero exit code")
      (some ⟨1, "", "<!> Error: Queue overflow -- in module net.switch[3]\n"⟩)).error_module =
      some "net.switch[3]" := by
  have h := (C9_error_fields "ERROR" (some "Non-zero exit code")
    ⟨1, "", "<!> Error: Queue overflow -- in module net.switch[3]\n"⟩).1
    "Queue overflow".data "net.switch[3]".data (by decide)
  exact h

/-! ### C4 -/

/-- C4: for every `ChartTestTask` where the chart definition is found (with
a non-empty declared export filename, otherwise the skip rule of C5
applies) and the baseline file exists, the similarity metric is computed
between the baseline image and the freshly rendered candidate: metric `0`
yields `PASS` with no reason, a nonzero metric yields `FAIL` with the
metric value in the reason, and the candidate file is deleted afterwards
unless `keep_charts` is passed. -/
theorem C4_metric_classification (rmse : String → String → ℚ)
    (ratToString : ℚ → String) (folder chart_name rendered : String)
    (keep_charts : Bool) (charts : List Chart) (fs : FS) (chart : Chart)
    (s old_image : String)
    (hfind : findChart charts chart_name = some chart)
    (hprop : chart.image_export_filename = some s)
    (hne : s ≠ "")
    (hold : FS.read? (FS.write fs (pathJoin folder (candidateFileName s)) rendered)
        (pathJoin folder (baselineFileName s)) = some old_image) :
    ChartTestTask.run_protected rmse ratToString folder chart_name rendered
        keep_charts charts fs =
      Except.ok
        ({ result := if rmse old_image rendered = 0 then "PASS" else "FAIL",
           expected_result := none,
           reason := if rmse old_image rendered = 0 then none
                     else some ("Metric: " ++ ratToString (rmse old_image rendered)) },
         if keep_charts then
           FS.write fs (pathJoin folder (candidateFileName s)) rendered
         else
           FS.remove (FS.write fs (pathJoin folder (candidateFileName s)) rendered)
             (pathJoin folder (candidateFileName s))) := by
  rw [run_protected_found_test _ _ _ _ _ _ _ _ _ hfind]
  have hb : (s == "") = false := by simpa using hne
  simp only [ChartTestTask.runFound, hprop, hb, Bool.false_eq_true, if_false,
    FS.read?_write_self, hold]

/-- Witness for C4 at a differing baseline: `FAIL` with the metric in the
reason, candidate deleted. -/
theorem C4_metric_classification_witness :
    ChartTestTask.run_protected (fun a b => if a = b then (0 : ℚ) else 1)
        (fun _ => "0.25") "/proj" "c1" "NEW" false [⟨"c1", some "img"⟩]
        [("/proj/doc/media/img.png", "OLD")] =
      Except.ok
        ({ result := "FAIL", expected_result := none,
           reason := some "Metric: 0.25" },
         [("/proj/doc/media/img.png", "OLD")]) := by
  have h := C4_metric_classification (fun a b => if a = b then (0 : ℚ) else 1)
    (fun _ => "0.25") "/proj" "c1" "NEW" false [⟨"c1", some "img"⟩]
    [("/proj/doc/media/img.png", "OLD")] ⟨"c1", some "img"⟩ "img" "OLD"
    (by decide) rfl (by decide) (by decide)
  exact h

/-! ### C3 -/

/-- C3: for every `ChartUpdateTask` whose chart definition is found (with a
non-empty declared export filename): an existing baseline byte-for-byte
identical to the rendered candidate gives `KEEP` and the candidate is
deleted; an existing differing baseline gives `UPDATE` with the candidate
renamed onto the baseline path; a missing baseline gives `INSERT` with the
candidate renamed into the baseline path.  The update embedding computes
no similarity metric anywhere (it takes no metric collaborator at all). -/
theorem C3_update_reconciliation (folder chart_name rendered : String)
    (charts : List Chart) (fs : FS) (chart : Chart) (s : String)
    (hfind : findChart charts chart_name = some chart)
    (hprop : chart.image_export_filename = some s)
    (hne : s ≠ "") :
    (FS.read? (FS.write fs (pathJoin folder (candidateFileName s)) rendered)
        (pathJoin folder (baselineFileName s)) = some rendered →
      ChartUpdateTask.run_protected folder chart_name rendered charts fs =
        Except.ok ({ result := "KEEP", expected_result := none, reason := none },
          FS.remove (FS.write fs (pathJoin folder (candidateFileName s)) rendered)
            (pathJoin folder (candidateFileName s))) ∧
      FS.read? (FS.remove (FS.write fs (pathJoin folder (candidateFileName s)) rendered)
          (pathJoin folder (candidateFileName s)))
        (pathJoin folder (candidateFileName s)) = none) ∧
    (∀ c, FS.read? (FS.write fs (pathJoin folder (candidateFileName s)) rendered)
        (pathJoin folder (baselineFileName s)) = some c → c ≠ rendered →
      ChartUpdateTask.run_protected folder chart_name rendered charts fs =
        Except.ok ({ result := "UPDATE", expected_result := none, reason := none },
          FS.rename (FS.write fs (pathJoin folder (candidateFileName s)) rendered)
            (pathJoin folder (candidateFileName s))
            (pathJoin folder (baselineFileName s))) ∧
      FS.read? (FS.rename (FS.write fs (pathJoin folder (candidateFileName s)) rendered)
          (pathJoin folder (candidateFileName s))
          (pathJoin folder (baselineFileName s)))
        (pathJoin folder (baselineFileName s)) = some rendered) ∧
    (FS.read? (FS.write fs (pathJoin folder (candidateFileName s)) rendered)
        (pathJoin folder (baselineFileName s)) = none →
      ChartUpdateTask.run_protected folder chart_name rendered charts fs =
        Except.ok ({ result := "INSERT", expected_result := none, reason := none },
          FS.rename (FS.write fs (pathJoin folder (candidateFileName s)) rendered)
            (pathJoin folder (candidateFileName s))
            (pathJoin folder (baselineFileName s))) ∧
      FS.read? (FS.rename (FS.write fs (pathJoin folder (candidateFileName s)) rendered)
          (pathJoin folder (candidateFileName s))
          (pathJoin folder (baselineFileName s)))
        (pathJoin folder (baselineFileName s)) = some rendered) := by
  have hb : (s == "") = false := by simpa using hne
  refine ⟨fun hold => ⟨?_, ?_⟩, fun c hold hcne => ⟨?_, ?_⟩, fun hold => ⟨?_, ?_⟩⟩
  · rw [run_protected_found_update _ _ _ _ _ _ hfind]
    simp only [ChartUpdateTask.runFound, hprop, hb, Bool.false_eq_true, if_false,
      FS.read?_write_self, hold, if_true, eq_self_iff_true]
  · exact FS.read?_remove_self _ _
  · rw [run_protected_found_update _ _ _ _ _ _ hfind]
    simp only [ChartUpdateTask.runFound, hprop, hb, Bool.false_eq_true, if_false,
      FS.read?_write_self, hold, hcne, if_false, if_neg hcne]
  · simp only [FS.rename, FS.read?_write_self]
  · rw [run_protected_found_update _ _ _ _ _ _ hfind]
    simp only [ChartUpdateTask.runFound, hprop, hb, Bool.false_eq_true, if_false,
      FS.read?_write_self, hold]
  · simp only [FS.rename, FS.read?_write_self]

/-- Witness for C3 at a missing baseline: `INSERT`, candidate adopted as
the new baseline. -/
theorem C3_update_reconciliation_witness :
    ChartUpdateTask.run_protected "/proj" "c1" "NEW" [⟨"c1", some "img"⟩] [] =
      Except.ok ({ result := "INSERT", expected_result := none, reason := none },
        [("/proj/doc/media/img.png", "NEW")]) ∧
    FS.read? [("/proj/doc/media/img.png", "NEW")] "/proj/doc/media/img.png" =
      some "NEW" := by
  have h := (C3_update_reconciliation "/proj" "c1" "NEW" [⟨"c1", some "img"⟩] []
    ⟨"c1", some "img"⟩ "img" (by decide) rfl (by decide)).2.2 (by decide)
  exact h

/-! ### C6 -/

/-- C6: the two "Chart not found" outcomes are distinguished by result
code: a found chart definition (with a usable export filename) whose
baseline image is missing yields `FAIL` with reason "Chart not found",
while a chart name matching no chart in the analysis yields `ERROR` with
the same reason. -/
theorem C6_chart_not_found_codes (rmse : String → String → ℚ)
    (ratToString : ℚ → String) (folder chart_name rendered : String)
    (keep_charts : Bool) (charts : List Chart) (fs : FS) :
    (∀ chart s, findChart charts chart_name = some chart →
      chart.image_export_filename = some s → s ≠ "" →
      FS.read? (FS.write fs (pathJoin folder (candidateFileName s)) rendered)
        (pathJoin folder (baselineFileName s)) = none →
      ChartTestTask.run_protected rmse ratToString folder chart_name rendered
          keep_charts charts fs =
        Except.ok ({ result := "FAIL", expected_result := none,
                     reason := some "Chart not found" },
          FS.write fs (pathJoin folder (candidateFileName s)) rendered)) ∧
    (findChart charts chart_name = none →
      ChartTestTask.run_protected rmse ratToString folder chart_name rendered
          keep_charts charts fs =
        Except.ok ({ result := "ERROR", expected_result := none,
                     reason := some "Chart not found" }, fs)) := by
  constructor
  · intro chart s hfind hprop hne hold
    rw [run_protected_found_test _ _ _ _ _ _ _ _ _ hfind]
    have hb : (s == "") = false := by simpa using hne
    simp only [ChartTestTask.runFound, hprop, hb, Bool.false_eq_true, if_false, hold]
  · intro hnone
    exact run_protected_notFound_test _ _ _ _ _ _ _ _ hnone

/-- Witness for C6: missing baseline gives `FAIL`, missing chart
definition gives `ERROR`, both with reason "Chart not found". -/
theorem C6_chart_not_found_codes_witness :
    ChartTestTask.run_protected (fun _ _ => (0 : ℚ)) (fun _ => "0") "/proj" "c1"
        "NEW" false [⟨"c1", some "img"⟩] [] =
      Except.ok ({ result := "FAIL", expected_result := none,
                   reason := some "Chart not found" },
        [("/proj/doc/media/img_new.png", "NEW")]) ∧
    ChartTestTask.run_protected (fun _ _ => (0 : ℚ)) (fun _ => "0") "/proj" "zzz"
        "NEW" false [⟨"c1", some "img"⟩] [] =
      Except.ok ({ result := "ERROR", expected_result := none,
                   reason := some "Chart not found" }, []) := by
  have h := C6_chart_not_found_codes (fun _ _ => (0 : ℚ)) (fun _ => "0") "/proj"
    "c1" "NEW" false [⟨"c1", some "img"⟩] []
  have h2 := C6_chart_not_found_codes (fun _ _ => (0 : ℚ)) (fun _ => "0") "/proj"
    "zzz" "NEW" false [⟨"c1", some "img"⟩] []
  exact ⟨h.1 ⟨"c1", some "img"⟩ "img" (by decide) rfl (by decide) (by decide),
    h2.2 (by decide)⟩

/-! ### C5 -/

/-- C5 (divergence witness): the claim says an absent (`None`) or empty
declared export filename yields `SKIP` with reason "Chart file name is not
specified".  The empty string does, but the source concatenates
`image_export_filename + "_new"` (chart.py line 30) *before* the
`is None` check on line 33, so a `None` filename raises `TypeError`
instead of returning the SKIP result. -/
theorem C5_none_filename_raises :
    ChartTestTask.run_protected (fun _ _ => (0 : ℚ)) (fun _ => "0") "/proj" "foo"
        "NEW" false [⟨"foo", none⟩] [] =
      Except.error (PyError.typeError
        "unsupported operand type for +: NoneType and str") ∧
    ChartTestTask.run_protected (fun _ _ => (0 : ℚ)) (fun _ => "0") "/proj" "foo"
        "NEW" false [⟨"foo", some ""⟩] [] =
      Except.ok ({ result := "SKIP", expected_result := some "SKIP",
                   reason := some "Chart file name is not specified" },
        [("/proj/doc/media/_new.png", "NEW")]) := by
  constructor
  · rfl
  · rfl

/-! ### C10 -/

/-- The characters of the reserved suffix `"_new"`. -/
def underscoreNew : List Char := ['_', 'n', 'e', 'w']

theorem string_data_append (a b : String) : (a ++ b).data = a.data ++ b.data := by
  cases a
  cases b
  rfl

theorem string_ext (a b : String) (h : a.data = b.data) : a = b := by
  cases a
  cases b
  cases h
  rfl

theorem removeUnderscoreNew_step (c : Char) (t : List Char)
    (h : startsWith underscoreNew (c :: t) = false) :
    removeUnderscoreNew (c :: t) = c :: removeUnderscoreNew t := by
  rw [removeUnderscoreNew.eq_def]
  split
  · rename_i rest heq
    injection heq with h1 h2
    subst h1
    subst h2
    simp [startsWith, underscoreNew] at h
  · rename_i x1 c2 rest2 hno heq
    injection heq with h1 h2
    subst h1
    subst h2
    rfl
  · rename_i x heq
    simp at heq

theorem removeUnderscoreNew_fire (t : List Char) :
    removeUnderscoreNew ('_' :: 'n' :: 'e' :: 'w' :: t) = removeUnderscoreNew t := rfl

/-- No occurrence of `"_new"` can straddle the boundary between a clean
head and an appended literal `"_new"`. -/
theorem startsWith_no_straddle (c : Char) (l r : List Char)
    (h : startsWith underscoreNew (c :: l) = false) :
    startsWith underscoreNew (c :: (l ++ underscoreNew ++ r)) = false := by
  match l with
  | [] => simp [startsWith, underscoreNew]
  | [a] => simp [startsWith, underscoreNew]
  | [a, b] => simp [startsWith, underscoreNew]
  | a :: b :: d :: l' =>
    simp [startsWith, underscoreNew] at h ⊢
    exact h

/-- `re.sub("_new", "", ·)` on `l ++ "_new" ++ r` with `l` free of
`"_new"`: the copy after `l` is deleted and `l` passes through. -/
theorem removeUnderscoreNew_append (l : List Char)
    (h : containsSub underscoreNew l = false) (r : List Char) :
    removeUnderscoreNew (l ++ underscoreNew ++ r) = l ++ removeUnderscoreNew r := by
  induction l with
  | nil =>
    have he : ([] : List Char) ++ underscoreNew ++ r = '_' :: 'n' :: 'e' :: 'w' :: r := rfl
    rw [he, removeUnderscoreNew_fire]
    rfl
  | cons c l' ih =>
    simp only [containsSub, Bool.or_eq_false_iff] at h
    have step := removeUnderscoreNew_step c (l' ++ underscoreNew ++ r)
      (startsWith_no_straddle c l' r h.1)
    calc removeUnderscoreNew ((c :: l') ++ underscoreNew ++ r)
        = removeUnderscoreNew (c :: (l' ++ underscoreNew ++ r)) := by simp
      _ = c :: removeUnderscoreNew (l' ++ underscoreNew ++ r) := step
      _ = c :: (l' ++ removeUnderscoreNew r) := by rw [ih h.2]
      _ = (c :: l') ++ removeUnderscoreNew r := rfl

theorem startsWith_uN_head_false (c : Char) (x : List Char)
    (hc : ('_' == c) = false) :
    startsWith underscoreNew (c :: x) = false := by
  simp [startsWith, underscoreNew, hc]

theorem containsSub_cons_false (c : Char) (x : List Char)
    (hc : ('_' == c) = false) (h : containsSub underscoreNew x = false) :
    containsSub underscoreNew (c :: x) = false := by
  simp [containsSub, startsWith_uN_head_false c x hc, h]

theorem containsSub_docmedia (m : List Char)
    (h : containsSub underscoreNew m = false) :
    containsSub underscoreNew ("doc/media/".data ++ m) = false := by
  show containsSub underscoreNew
    ('d' :: 'o' :: 'c' :: '/' :: 'm' :: 'e' :: 'd' :: 'i' :: 'a' :: '/' :: m) = false
  refine containsSub_cons_false _ _ (by decide) ?_
  refine containsSub_cons_false _ _ (by decide) ?_
  refine containsSub_cons_false _ _ (by decide) ?_
  refine containsSub_cons_false _ _ (by decide) ?_
  refine containsSub_cons_false _ _ (by decide) ?_
  refine containsSub_cons_false _ _ (by decide) ?_
  refine containsSub_cons_false _ _ (by decide) ?_
  refine containsSub_cons_false _ _ (by decide) ?_
  refine containsSub_cons_false _ _ (by decide) ?_
  refine containsSub_cons_false _ _ (by decide) ?_
  exact h

/-- C10 counterexample: for the declared export name `"a_newb"` — which
contains the substring `"_new"` — `re.sub("_new", "", ...)` deletes that
inner occurrence too, so the baseline path used by the code is
`doc/media/ab.png`, not the claimed `doc/media/a_newb.png`; consequently
an update run with the claimed baseline present classifies `INSERT`
(baseline "missing") instead of `KEEP`. -/
theorem C10_suffix_removal_counterexample :
    baselineFileName "a_newb" = "doc/media/ab.png" ∧
    baselineFileName "a_newb" ≠ "doc/media/a_newb.png" ∧
    ChartUpdateTask.run_protected "/p" "c" "NEW" [⟨"c", some "a_newb"⟩]
        [("/p/doc/media/a_newb.png", "NEW")] =
      Except.ok ({ result := "INSERT", expected_result := none, reason := none },
        [("/p/doc/media/ab.png", "NEW"), ("/p/doc/media/a_newb.png", "NEW")]) := by
  refine ⟨rfl, by decide, rfl⟩

/-- C10 (amended): the candidate image for declared export name `N` is
written under `N ++ "_new"` (inside the `doc/media` folder, with the
`.png` extension); the baseline path used for comparison and
reconciliation is the candidate path with *every* occurrence of `"_new"`
deleted, which equals the declared name `N` exactly when `N` itself does
not contain the substring `"_new"`. -/
theorem C10_suffix_removal_amended (N : String)
    (h : containsSub "_new".data N.data = false) :
    candidateFileName N = "doc/media/" ++ N ++ "_new" ++ ".png" ∧
    baselineFileName N = "doc/media/" ++ N ++ ".png" := by
  have h' : containsSub underscoreNew N.data = false := h
  constructor
  · apply string_ext
    simp [candidateFileName, exportImageFileName, string_data_append,
      List.append_assoc]
  · apply string_ext
    show removeUnderscoreNew (candidateFileName N).data = _
    have hd : (candidateFileName N).data =
        ("doc/media/".data ++ N.data) ++ underscoreNew ++ ".png".data := by
      simp [candidateFileName, exportImageFileName, string_data_append,
        List.append_assoc]
      rfl
    rw [hd, removeUnderscoreNew_append _ (containsSub_docmedia _ h') _]
    have hp : removeUnderscoreNew ".png".data = ".png".data := rfl
    rw [hp]
    simp [string_data_append, List.append_assoc]

/-- Witness for the amended C10 at the clean declared name `"img"`. -/
theorem C10_suffix_removal_amended_witness :
    containsSub "_new".data "img".data = false ∧
    candidateFileName "img" = "doc/media/img_new.png" ∧
    baselineFileName "img" = "doc/media/img.png" := by
  have h := C10_suffix_removal_amended "img" (by decide)
  exact ⟨by decide, h.1, h.2⟩

/-- Witness for C7 at a concrete path outside any home directory. -/
theorem C7_clean_guard_witness :
    (clean_simulation_results "/tmp/foo" ["/tmp/foo/results"]).1 =
      some "Path is not in home" ∧
    (clean_simulation_results "/tmp/foo" ["/tmp/foo/results"]).2 =
      ["/tmp/foo/results"] := by
  have h := (C7_clean_guard "/tmp/foo" ["/tmp/foo/results"]).1 (by decide)
  exact ⟨h.1, h.2.1⟩

end Inet
